import Mathlib

/-!
# Verification of the mock presence-channel core (jest-mock-this-issue)

A shallow embedding of the repository's channel-registry-plus-identity-overlay
mechanism. JavaScript objects are modelled as association lists of properties
living in an explicit heap (a list of objects addressed by position), so that
object identity (`===`), aliasing and mutation can be stated faithfully.

The repository contains two parallel drafts of the same design:
* pipeline 1: `src/unnamed/part_002` (`MockClient` with `setID`/bound methods)
  + `src/mock-instance.js` (`channel(name)`) + the `members`-merging proxy
  (`src/unnamed/part_001`, lines 12-27); exercised by `src/client.test.js`;
* pipeline 2: `src/mock-client.js` + `src/unnamed/part_000`
  (`channel(name, client)`) + the bare-`myID` proxy (`src/unnamed/part_001`,
  lines 1-11); exercised by `src/create-client.test.js` via
  `src/create-client.js`.

Both are embedded below.
-/

namespace JestMock

/-- JavaScript values, as far as this program manipulates them: `undefined`,
strings, and references to heap objects. -/
inductive JSVal where
  | undef
  | str (s : String)
  | ref (a : Nat)
deriving DecidableEq, Repr

/-- A JavaScript object: its own string-keyed properties, in insertion order. -/
abbrev JSObj := List (String × JSVal)

/-- Own-property read on an object: the first binding of the key, `undefined`
when the key is not an own property. The two places where the program's
behavior depends on the `Object.prototype` chain rather than on own
properties alone — the registry's truthiness test `!this.channels[name]` and
the default `[[Set]]` at the key `__proto__` — are modelled separately, in
`MockInstance.channelJS` and `proxySet`. -/
def objGet (o : JSObj) (k : String) : JSVal :=
  match o with
  | [] => .undef
  | (k0, v0) :: rest => if k0 = k then v0 else objGet rest k

/-- Property write on an object: overwrites the binding in place when the key
is already an own property (JS keeps the first-insertion position), otherwise
appends it. -/
def objSet (o : JSObj) (k : String) (v : JSVal) : JSObj :=
  match o with
  | [] => [(k, v)]
  | (k0, v0) :: rest => if k0 = k then (k, v) :: rest else (k0, v0) :: objSet rest k v

/-- The heap: all allocated objects, addressed by position. -/
structure Heap where
  objs : List JSObj
deriving Repr, DecidableEq

/-- Dereference an address (total: a dangling address reads as the empty
object; the program never creates dangling references). -/
def Heap.get (h : Heap) (a : Nat) : JSObj :=
  (h.objs.get? a).getD []

/-- Overwrite the object stored at an address. -/
def Heap.set (h : Heap) (a : Nat) (o : JSObj) : Heap :=
  ⟨h.objs.set a o⟩

/-- Allocate a fresh object, returning the new heap and the fresh address. -/
def Heap.alloc (h : Heap) (o : JSObj) : Heap × Nat :=
  (⟨h.objs ++ [o]⟩, h.objs.length)

/-- `MockChannel` constructor (shown in `src/README.md`, file
`mock-channel.js`): `this.name = name; this.members = {}` — allocates a fresh
empty membership object and a channel object whose `members` property
references it. Returns the heap and the channel's address. -/
def MockChannel.new (h : Heap) (name : String) : Heap × Nat :=
  let (h1, m) := h.alloc []
  h1.alloc [("name", .str name), ("members", .ref m)]

/-- The registry's state: its `channels` mapping from name to channel
(`this.channels`), channels held by reference into the heap. -/
structure MockInstance where
  channels : List (String × Nat)
deriving Repr, DecidableEq

/-- `MockInstance.channel` (`src/mock-instance.js`, lines 8-16) over the
registry mapping's own keys: if no channel is stored under `name`, construct
one and store it; return the stored channel either way. This is the
behavior of the source for every name that is not a property of
`Object.prototype`; `MockInstance.channelJS` below refines it with the
prototype chain of the plain object `this.channels = \x7b\x7d`. -/
def MockInstance.channel (st : MockInstance) (h : Heap) (name : String) :
    MockInstance × Heap × Nat :=
  match st.channels.lookup name with
  | some a => (st, h, a)
  | none =>
      let (h1, a) := MockChannel.new h name
      (⟨st.channels ++ [(name, a)]⟩, h1, a)

/-- The property names of `Object.prototype`. A plain object `\x7b\x7d`
inherits all of them, and each of the inherited values (methods, and the
`__proto__` accessor, whose getter yields `Object.prototype` itself) is
truthy. -/
def objectPrototypeKeys : List String :=
  ["constructor", "hasOwnProperty", "isPrototypeOf", "propertyIsEnumerable",
    "toLocaleString", "toString", "valueOf", "__defineGetter__",
    "__defineSetter__", "__lookupGetter__", "__lookupSetter__", "__proto__"]

/-- What `MockInstance.channel` hands back: either a stored `MockChannel`
(by reference), or the truthy non-Channel value `this.channels[name]`
inherited from `Object.prototype`. -/
inductive ChannelResult where
  | chan (a : Nat)
  | inherited (name : String)
deriving DecidableEq, Repr

/-- `MockInstance.channel` (`src/mock-instance.js`, lines 8-16) with the full
JavaScript semantics of `this.channels[name]` on the plain object
`this.channels = \x7b\x7d`: an own property (a stored channel) is found
first; otherwise the lookup continues on `Object.prototype`, whose inherited
values are all truthy, so for those names the guard `!this.channels[name]`
is false — no channel is constructed or stored, and the inherited
non-Channel value is returned. Only when both lookups miss is the value
falsy (`undefined`) and a new channel constructed and stored. -/
def MockInstance.channelJS (st : MockInstance) (h : Heap) (name : String) :
    MockInstance × Heap × ChannelResult :=
  match st.channels.lookup name with
  | some a => (st, h, .chan a)
  | none =>
      if name ∈ objectPrototypeKeys then
        (st, h, .inherited name)
      else
        let (h1, a) := MockChannel.new h name
        (⟨st.channels ++ [(name, a)]⟩, h1, .chan a)

/-- A client (`this` of `MockClient`): its `id` property, `undefined` until an
authorization callback assigns it. `idLog` is a ghost field recording every
value ever assigned to `this.id`, in order; it has no effect on reads. -/
structure MockClient where
  id : JSVal := .undef
  idLog : List JSVal := []
deriving Repr, DecidableEq

/-- An assignment `this.id = v`, with the ghost log extended. -/
def MockClient.assignId (c : MockClient) (v : JSVal) : MockClient :=
  { id := v, idLog := c.idLog ++ [v] }

/-- `MockClient.setID` (`src/unnamed/part_002`, lines 11-13):
`this.id = id`. -/
def MockClient.setID (c : MockClient) (v : JSVal) : MockClient :=
  c.assignId v

/-- The `get` trap of the first `proxyMockChannel` draft
(`src/unnamed/part_001`, lines 1-11): `if (key === "myID") return client.id;
return target[key];`. Reads take the client's state at read time, since the
proxy holds the client by reference. -/
def proxyGetV1 (h : Heap) (chan : Nat) (client : MockClient) (key : String) : JSVal :=
  if key = "myID" then client.id else objGet (h.get chan) key

/-- Other own properties contributed by spreading a value in an object
literal: a reference spreads its object's properties; `undefined` (and other
primitives of this program) contributes none. -/
def spreadProps (h : Heap) (v : JSVal) : JSObj :=
  match v with
  | .ref a => h.get a
  | _ => []

/-- The `get` trap of the second `proxyMockChannel` draft
(`src/unnamed/part_001`, lines 12-27): `case "members": return
\x7b ...target.members, myID: client.id \x7d; default: return target[key];`.
The object literal allocates a fresh object, so the read returns a possibly
grown heap together with the value. -/
def proxyGetV2 (h : Heap) (chan : Nat) (client : MockClient) (key : String) :
    Heap × JSVal :=
  if key = "members" then
    let merged := objSet (spreadProps h (objGet (h.get chan) "members")) "myID" client.id
    let (h1, a) := h.alloc merged
    (h1, .ref a)
  else
    (h, objGet (h.get chan) key)

/-- Neither handler in `src/unnamed/part_001` defines a `set` trap, so
property assignment on either proxy takes the default behavior: the write is
forwarded to the target channel object's `[[Set]]`. For an ordinary key this
creates or updates the channel's own property. The key `__proto__` is
special: the channel inherits the `__proto__` accessor from
`Object.prototype`, so the forwarded write invokes that setter and never
creates an own property — a non-object value is silently dropped (the heap
is unchanged), and an object reference would re-link the channel's
prototype, a state this embedding does not represent (`none`). -/
def proxySet (h : Heap) (chan : Nat) (key : String) (v : JSVal) : Option Heap :=
  if key = "__proto__" then
    match v with
    | .ref _ => none
    | _ => some h
  else
    some (h.set chan (objSet (h.get chan) key v))

/-- `MockClient.subscribe` (`src/unnamed/part_002`, lines 15-22): runs
`this.config.authorizer().authorize(this.setID)`, then returns
`proxyMockChannel(MockPusherInstance.channel(name), this)`. The caller-supplied
`authorize` step is modelled by its synchronous effect on the client: it either
invokes the bound `setID` now with some value (`some v`), or defers
(`none`, authorization still pending when `subscribe` returns). The returned
view is the channel's address; reads on it go through the proxy's `get` trap
with the client's state at read time. -/
def MockClient.subscribe (c : MockClient) (st : MockInstance) (h : Heap)
    (authNow : Option JSVal) (name : String) :
    MockClient × MockInstance × Heap × Nat :=
  let c1 := match authNow with
    | some v => c.setID v
    | none => c
  let (st1, h1, a) := MockInstance.channel st h name
  (c1, st1, h1, a)

/-- The membership mapping a subscriber observes: dereference the value
returned by a `members` read through the v2 proxy. -/
def viewMembers (h : Heap) (chan : Nat) (client : MockClient) : JSObj :=
  let (h1, v) := proxyGetV2 h chan client "members"
  match v with
  | .ref a => h1.get a
  | _ => []

/-- The callback defined inside `MockClient.subscribe`
(`src/mock-client.js`, line 9): `result => \x7b this.id = result.id; \x7d`.
It assigns `result.id` to `this.id` and, having a block body with no `return`,
evaluates to `undefined`. -/
def mockClientJsCallback (c : MockClient) (result : JSObj) : MockClient × JSVal :=
  (c.assignId (objGet result "id"), .undef)

/-- The authorizer installed by `createClient` (`src/create-client.js`):
`callback => callback(\x7b id \x7d)` — calls the callback with the object
`\x7b id: idv \x7d` and returns the callback's result. -/
def createClientAuthorizer (idv : JSVal) (c : MockClient)
    (cb : MockClient → JSObj → MockClient × JSVal) : MockClient × JSVal :=
  cb c [("id", idv)]

/-- `MockClient.subscribe` from `src/mock-client.js` (lines 8-14), run with the
`createClient` configuration: `this.id = this.config.authorizer(callback);
return MockInstance.channel(name, this);`. The right-hand side runs first
(the callback assigns `this.id`), then its result is itself assigned to
`this.id`. `src/unnamed/part_000`'s `channel(name, client)` wraps the stored
channel in the default-exported proxy (v1), so the returned view is the
channel's address, read through `proxyGetV1`. -/
def subscribeViaCreateClient (st : MockInstance) (h : Heap) (c : MockClient)
    (idv : JSVal) (name : String) :
    MockInstance × Heap × MockClient × Nat :=
  let (c1, ret) := createClientAuthorizer idv c mockClientJsCallback
  let c2 := c1.assignId ret
  let (st1, h1, a) := MockInstance.channel st h name
  (st1, h1, c2, a)

/-! ## Basic lemmas about objects, the heap and the registry mapping -/

theorem objGet_objSet_self (o : JSObj) (k : String) (v : JSVal) :
    objGet (objSet o k v) k = v := by
  induction o with
  | nil => simp [objSet, objGet]
  | cons p rest ih =>
      obtain ⟨k0, v0⟩ := p
      by_cases hk : k0 = k <;> simp [objSet, objGet, hk, ih]

theorem objGet_objSet_ne (o : JSObj) (k k' : String) (v : JSVal) (hk : k' ≠ k) :
    objGet (objSet o k v) k' = objGet o k' := by
  have hk' : ¬ k = k' := fun h => hk h.symm
  induction o with
  | nil => simp only [objSet, objGet, if_neg hk']
  | cons p rest ih =>
      obtain ⟨k0, v0⟩ := p
      by_cases h0 : k0 = k
      · subst h0
        simp only [objSet, if_pos rfl, objGet, if_neg hk']
      · simp only [objSet, if_neg h0, objGet, ih]

theorem lookup_cons_beq (l : List (String × Nat)) (k k0 : String) (v0 : Nat) :
    ((k0, v0) :: l).lookup k = cond (k == k0) (some v0) (l.lookup k) := rfl

theorem lookup_append_singleton (l : List (String × Nat)) (k : String) (v : Nat)
    (hnone : l.lookup k = none) : (l ++ [(k, v)]).lookup k = some v := by
  induction l with
  | nil => simp [List.lookup]
  | cons p rest ih =>
      obtain ⟨k0, v0⟩ := p
      rw [List.cons_append, lookup_cons_beq]
      rw [lookup_cons_beq] at hnone
      cases hb : (k == k0)
      · rw [hb] at hnone
        simp only [cond_false] at hnone ⊢
        exact ih hnone
      · rw [hb] at hnone
        simp only [cond_true] at hnone
        exact absurd hnone (by simp)

theorem listGetD_append_self (l : List JSObj) (o : JSObj) :
    ((l ++ [o]).get? l.length).getD [] = o := by
  induction l with
  | nil => rfl
  | cons x rest ih => simp [ih]

theorem listGetD_append_lt (l : List JSObj) (o : JSObj) (a : Nat) (ha : a < l.length) :
    ((l ++ [o]).get? a).getD [] = (l.get? a).getD [] := by
  induction l generalizing a with
  | nil => simp at ha
  | cons x rest ih =>
      cases a with
      | zero => rfl
      | succ a => exact ih a (Nat.lt_of_succ_lt_succ ha)

theorem listGetD_set_self (l : List JSObj) (o : JSObj) (a : Nat) (ha : a < l.length) :
    ((l.set a o).get? a).getD [] = o := by
  induction l generalizing a with
  | nil => simp at ha
  | cons x rest ih =>
      cases a with
      | zero => rfl
      | succ a => exact ih a (Nat.lt_of_succ_lt_succ ha)

theorem listGetD_set_ne (l : List JSObj) (o : JSObj) (a b : Nat) (hab : b ≠ a) :
    ((l.set a o).get? b).getD [] = (l.get? b).getD [] := by
  induction l generalizing a b with
  | nil => rfl
  | cons x rest ih =>
      cases a with
      | zero =>
          cases b with
          | zero => exact absurd rfl hab
          | succ b => rfl
      | succ a =>
          cases b with
          | zero => rfl
          | succ b => exact ih a b (fun h => hab (congrArg Nat.succ h))

theorem Heap.get_alloc_self (h : Heap) (o : JSObj) :
    (h.alloc o).1.get h.objs.length = o :=
  listGetD_append_self h.objs o

theorem Heap.get_alloc_lt (h : Heap) (o : JSObj) (a : Nat) (ha : a < h.objs.length) :
    (h.alloc o).1.get a = h.get a :=
  listGetD_append_lt h.objs o a ha

theorem Heap.get_set_self (h : Heap) (a : Nat) (o : JSObj) (ha : a < h.objs.length) :
    (h.set a o).get a = o :=
  listGetD_set_self h.objs o a ha

theorem Heap.get_set_ne (h : Heap) (a b : Nat) (o : JSObj) (hab : b ≠ a) :
    (h.set a o).get b = h.get b :=
  listGetD_set_ne h.objs o a b hab

/-- After any registry call, the returned address is the one stored under the
name. -/
theorem channel_lookup_post (st : MockInstance) (h : Heap) (n : String) :
    (MockInstance.channel st h n).1.channels.lookup n =
      some (MockInstance.channel st h n).2.2 := by
  unfold MockInstance.channel
  cases hl : st.channels.lookup n with
  | some a => simpa using hl
  | none =>
      simp only [MockChannel.new, Heap.alloc]
      exact lookup_append_singleton st.channels n _ hl

/-- A registry call on a name already stored is pure: nothing changes and the
stored address is returned. -/
theorem channel_stable (st : MockInstance) (h : Heap) (n : String) (a : Nat)
    (hl : st.channels.lookup n = some a) :
    MockInstance.channel st h n = (st, h, a) := by
  unfold MockInstance.channel
  rw [hl]

/-- The registry call, repeated: the second call changes nothing and returns
the same address. -/
theorem channel_idempotent (st : MockInstance) (h : Heap) (n : String) :
    MockInstance.channel (MockInstance.channel st h n).1
        (MockInstance.channel st h n).2.1 n =
      ((MockInstance.channel st h n).1, (MockInstance.channel st h n).2.1,
        (MockInstance.channel st h n).2.2) :=
  channel_stable _ _ _ _ (channel_lookup_post st h n)

/-- Reading `members` through the v2 proxy allocates the merged object at the
end of the heap and returns a reference to it. -/
theorem proxyGetV2_members (h : Heap) (a : Nat) (c : MockClient) :
    proxyGetV2 h a c "members" =
      (⟨h.objs ++ [objSet (spreadProps h (objGet (h.get a) "members")) "myID" c.id]⟩,
        .ref h.objs.length) := by
  simp [proxyGetV2, Heap.alloc]

/-- The membership mapping observed through the v2 proxy is the channel's
membership spread into a fresh object with `myID` bound to the client's
current `id`. -/
theorem viewMembers_eq (h : Heap) (a : Nat) (c : MockClient) :
    viewMembers h a c =
      objSet (spreadProps h (objGet (h.get a) "members")) "myID" c.id := by
  unfold viewMembers
  rw [proxyGetV2_members]
  exact listGetD_append_self h.objs _

/-- Unfolding `MockClient.subscribe`: the client is updated by the
synchronous part of the authorization, and the view is the registry's
channel. -/
theorem subscribe_eq (c : MockClient) (st : MockInstance) (h : Heap)
    (v : Option JSVal) (n : String) :
    MockClient.subscribe c st h v n =
      ((match v with | some w => c.setID w | none => c),
        MockInstance.channel st h n) := by
  unfold MockClient.subscribe
  cases hch : MockInstance.channel st h n with
  | mk st1 rest =>
      cases rest with
      | mk h1 a => rfl

/-! ## Claims -/

/-- C1. Registry idempotence / referential stability: for every name, two
calls to `MockInstance.channel` with the same name return the identical
channel object — the second call returns the same heap address as the first
and leaves the registry state and the heap untouched, so mutations made
through one subscriber's channel are visible to all subscribers of that
name. -/
theorem registry_getOrCreate_idempotent (st : MockInstance) (h : Heap) (n : String)
    (st1 : MockInstance) (h1 : Heap) (a1 : Nat)
    (hfirst : MockInstance.channel st h n = (st1, h1, a1)) :
    MockInstance.channel st1 h1 n = (st1, h1, a1) := by
  have := channel_idempotent st h n
  rw [hfirst] at this
  exact this

/-- Witness for C1 at a concrete input. -/
theorem registry_getOrCreate_idempotent_witness :
    MockInstance.channel
        (MockInstance.channel ⟨[]⟩ ⟨[]⟩ "room-1").1
        (MockInstance.channel ⟨[]⟩ ⟨[]⟩ "room-1").2.1 "room-1" =
      ((MockInstance.channel ⟨[]⟩ ⟨[]⟩ "room-1").1,
        (MockInstance.channel ⟨[]⟩ ⟨[]⟩ "room-1").2.1,
        (MockInstance.channel ⟨[]⟩ ⟨[]⟩ "room-1").2.2) :=
  registry_getOrCreate_idempotent ⟨[]⟩ ⟨[]⟩ "room-1" _ _ _ rfl

/-- C9 counterexample: at the caller-supplied name "toString", from a fresh
registry, the truthiness test `!this.channels[name]` sees the truthy
`Object.prototype.toString` — no channel is constructed, nothing is stored
in the mapping, and the value returned is the inherited non-Channel — so the
registry does not "always return a Channel, for any name the caller
supplies". -/
theorem registry_no_channel_for_toString :
    MockInstance.channelJS ⟨[]⟩ ⟨[]⟩ "toString" =
      (⟨[]⟩, ⟨[]⟩, .inherited "toString") ∧
    (MockInstance.channelJS ⟨[]⟩ ⟨[]⟩ "toString").1.channels = [] ∧
    (MockInstance.channelJS ⟨[]⟩ ⟨[]⟩ "toString").2.2 ≠ .chan 1 := by
  refine ⟨rfl, rfl, ?_⟩
  decide

/-- C9 amended. Registry behavior over `MockInstance.channelJS`: a name with
a stored channel returns that stored channel with nothing changed; a name
with no stored channel that is not a property of `Object.prototype`
constructs a new channel with empty membership, stores it keyed by the name,
and returns it; for the finitely many `Object.prototype` names the guard is
defeated by the truthy inherited value, so nothing is constructed or stored
and the inherited non-Channel value is returned. No case fails. -/
theorem registry_totality_amended (st : MockInstance) (h : Heap) (n : String)
    (st1 : MockInstance) (h1 : Heap) (r : ChannelResult)
    (hc : MockInstance.channelJS st h n = (st1, h1, r)) :
    (∀ a0, st.channels.lookup n = some a0 → st1 = st ∧ h1 = h ∧ r = .chan a0) ∧
    (st.channels.lookup n = none → n ∉ objectPrototypeKeys →
      r = .chan (h.objs.length + 1) ∧
      st1.channels = st.channels ++ [(n, h.objs.length + 1)] ∧
      st1.channels.lookup n = some (h.objs.length + 1) ∧
      h1.get (h.objs.length + 1) = [("name", .str n), ("members", .ref h.objs.length)] ∧
      h1.get h.objs.length = []) ∧
    (st.channels.lookup n = none → n ∈ objectPrototypeKeys →
      st1 = st ∧ h1 = h ∧ r = .inherited n) := by
  cases hl : st.channels.lookup n with
  | some a0 =>
      unfold MockInstance.channelJS at hc
      rw [hl] at hc
      injection hc with e1 e23
      injection e23 with e2 e3
      subst e1; subst e2; subst e3
      refine ⟨?_, fun hno => Option.noConfusion hno,
        fun hno => Option.noConfusion hno⟩
      intro a1 hsome
      injection hsome with e
      exact ⟨rfl, rfl, by rw [e]⟩
  | none =>
      unfold MockInstance.channelJS at hc
      rw [hl] at hc
      by_cases hp : n ∈ objectPrototypeKeys
      · rw [if_pos hp] at hc
        injection hc with e1 e23
        injection e23 with e2 e3
        subst e1; subst e2; subst e3
        exact ⟨fun a0 hsome => Option.noConfusion hsome,
          fun _ hnp => absurd hp hnp, fun _ _ => ⟨rfl, rfl, rfl⟩⟩
      · rw [if_neg hp] at hc
        simp only [MockChannel.new, Heap.alloc] at hc
        injection hc with e1 e23
        injection e23 with e2 e3
        subst e1; subst e2; subst e3
        have hlen : (h.objs ++ [([] : JSObj)]).length = h.objs.length + 1 := by
          simp
        refine ⟨fun a0 hsome => Option.noConfusion hsome,
          fun _ _ => ⟨?_, ?_, ?_, ?_, ?_⟩, fun _ hp2 => absurd hp2 hp⟩
        · rw [hlen]
        · rw [hlen]
        · rw [← hlen]
          exact lookup_append_singleton st.channels n _ hl
        · rw [← hlen]
          exact listGetD_append_self (h.objs ++ [[]])
            [("name", JSVal.str n), ("members", JSVal.ref h.objs.length)]
        · have hlt := listGetD_append_lt (h.objs ++ [[]])
            [("name", JSVal.str n), ("members", JSVal.ref h.objs.length)]
            h.objs.length (by simp)
          have hbase := listGetD_append_self h.objs ([] : JSObj)
          exact hlt.trans hbase

/-- Witness for the amended C9 at a concrete input: "room-1" is not a
prototype name, so the channel is created, stored, and found. -/
theorem registry_totality_amended_witness :
    (⟨[("room-1", 1)]⟩ : MockInstance).channels.lookup "room-1" = some 1 :=
  ((registry_totality_amended ⟨[]⟩ ⟨[]⟩ "room-1" ⟨[("room-1", 1)]⟩
      ⟨[[], [("name", JSVal.str "room-1"), ("members", JSVal.ref 0)]]⟩
      (.chan 1) (by decide)).2.1 (by decide) (by decide)).2.2.1

/-- C3. Members-merge projection: every read of `members` through the v2
proxy returns a freshly allocated mapping (its address did not exist in the
heap before the read) equal to the channel's `members` extended with an entry
at the sentinel key `myID` holding the client's `id` at the time of the read;
the channel's own membership object is untouched. -/
theorem members_merge_projection (h : Heap) (a m : Nat) (c : MockClient)
    (hm : objGet (h.get a) "members" = .ref m) (hmv : m < h.objs.length) :
    proxyGetV2 h a c "members" =
      (⟨h.objs ++ [objSet (h.get m) "myID" c.id]⟩, .ref h.objs.length) ∧
    h.objs.length ≠ m ∧
    (proxyGetV2 h a c "members").1.get h.objs.length = objSet (h.get m) "myID" c.id ∧
    objGet ((proxyGetV2 h a c "members").1.get h.objs.length) "myID" = c.id ∧
    (∀ k, k ≠ "myID" →
      objGet ((proxyGetV2 h a c "members").1.get h.objs.length) k =
        objGet (h.get m) k) ∧
    (proxyGetV2 h a c "members").1.get m = h.get m := by
  have hv2 : proxyGetV2 h a c "members" =
      (⟨h.objs ++ [objSet (h.get m) "myID" c.id]⟩, .ref h.objs.length) := by
    rw [proxyGetV2_members, hm]
    rfl
  have hfresh : (proxyGetV2 h a c "members").1.get h.objs.length =
      objSet (h.get m) "myID" c.id := by
    rw [hv2]
    exact listGetD_append_self h.objs _
  refine ⟨hv2, Nat.ne_of_gt hmv, hfresh, ?_, ?_, ?_⟩
  · rw [hfresh]
    exact objGet_objSet_self _ _ _
  · intro k hk
    rw [hfresh]
    exact objGet_objSet_ne _ _ _ _ hk
  · rw [hv2]
    exact listGetD_append_lt h.objs _ m hmv

/-- Witness for C3 at a concrete input. -/
theorem members_merge_projection_witness :
    proxyGetV2 ⟨[[("alice", JSVal.str "here")],
        [("name", JSVal.str "room-1"), ("members", JSVal.ref 0)]]⟩ 1
        { id := JSVal.str "bob" } "members" =
      (⟨[[("alice", JSVal.str "here")],
          [("name", JSVal.str "room-1"), ("members", JSVal.ref 0)],
          [("alice", JSVal.str "here"), ("myID", JSVal.str "bob")]]⟩,
        JSVal.ref 2) :=
  (members_merge_projection
    ⟨[[("alice", JSVal.str "here")],
      [("name", JSVal.str "room-1"), ("members", JSVal.ref 0)]]⟩ 1 0
    { id := JSVal.str "bob" } (by decide) (by decide)).1

/-- C5. Bare self-identity field: reading `myID` directly on a v1 overlay
returns the client's current `id` directly; the result does not depend on the
heap or on the wrapped channel at all. -/
theorem bare_myID_bypasses_channel (h h' : Heap) (a a' : Nat) (c : MockClient) :
    proxyGetV1 h a c "myID" = c.id ∧
    proxyGetV1 h a c "myID" = proxyGetV1 h' a' c "myID" := by
  constructor <;> simp [proxyGetV1]

/-- C6. Passthrough transparency: reading any key other than the overlay's
intercepted slot returns exactly what reading that key on the underlying
channel returns — for the v1 overlay any key other than `myID`, for the v2
overlay any key other than `members` (and the v2 read leaves the heap
untouched). Keys the channel does not define read as `undefined`; nothing
fails. -/
theorem passthrough_transparency (h : Heap) (a : Nat) (c : MockClient) (key : String) :
    (key ≠ "myID" → proxyGetV1 h a c key = objGet (h.get a) key) ∧
    (key ≠ "members" → proxyGetV2 h a c key = (h, objGet (h.get a) key)) := by
  constructor
  · intro hk
    simp [proxyGetV1, hk]
  · intro hk
    simp [proxyGetV2, hk]

/-- Witness for C6 at a concrete input: a key defined on the channel and a
key not defined anywhere both pass through (the latter as `undefined`). -/
theorem passthrough_transparency_witness :
    proxyGetV1 ⟨[[("name", JSVal.str "room-1"), ("members", JSVal.ref 1)], []]⟩ 0
      {} "name" = JSVal.str "room-1" ∧
    proxyGetV1 ⟨[[("name", JSVal.str "room-1"), ("members", JSVal.ref 1)], []]⟩ 0
      {} "callbacks" = JSVal.undef ∧
    proxyGetV2 ⟨[[("name", JSVal.str "room-1"), ("members", JSVal.ref 1)], []]⟩ 0
      {} "callbacks" =
      (⟨[[("name", JSVal.str "room-1"), ("members", JSVal.ref 1)], []]⟩, JSVal.undef) := by
  refine ⟨?_, ?_, ?_⟩
  · rw [(passthrough_transparency _ 0 {} "name").1 (by decide)]
    decide
  · rw [(passthrough_transparency _ 0 {} "callbacks").1 (by decide)]
    decide
  · rw [(passthrough_transparency _ 0 {} "callbacks").2 (by decide)]
    decide

/-- C2. Identity isolation: two clients with distinct resolved identities
subscribing to the same channel name get views over the identical underlying
channel object (same address, in the same final state); each view's `members`
reads its own client's identity in the `myID` slot, the two slots differ, and
the two membership views agree on every other key. -/
theorem identity_isolation (st : MockInstance) (h0 : Heap) (name : String)
    (cA cB : MockClient) (vA vB : JSVal) (hne : vA ≠ vB)
    (cA1 : MockClient) (st1 : MockInstance) (h1 : Heap) (aA : Nat)
    (hA : MockClient.subscribe cA st h0 (some vA) name = (cA1, st1, h1, aA))
    (cB1 : MockClient) (st2 : MockInstance) (h2 : Heap) (aB : Nat)
    (hB : MockClient.subscribe cB st1 h1 (some vB) name = (cB1, st2, h2, aB)) :
    aB = aA ∧ st2 = st1 ∧ h2 = h1 ∧
    objGet (viewMembers h2 aA cA1) "myID" = vA ∧
    objGet (viewMembers h2 aB cB1) "myID" = vB ∧
    objGet (viewMembers h2 aA cA1) "myID" ≠ objGet (viewMembers h2 aB cB1) "myID" ∧
    (∀ k, k ≠ "myID" →
      objGet (viewMembers h2 aA cA1) k = objGet (viewMembers h2 aB cB1) k) := by
  rw [subscribe_eq] at hA hB
  injection hA with eA echanA
  injection hB with eB echanB
  have hpost := channel_lookup_post st h0 name
  rw [echanA] at hpost
  have hstable := channel_stable st1 h1 name aA hpost
  rw [hstable] at echanB
  injection echanB with f1 f23
  injection f23 with f2 f3
  subst f1; subst f2; subst f3
  have hidA : cA1.id = vA := by rw [← eA]; rfl
  have hidB : cB1.id = vB := by rw [← eB]; rfl
  have hvA : objGet (viewMembers h1 aA cA1) "myID" = vA := by
    rw [viewMembers_eq, objGet_objSet_self, hidA]
  have hvB : objGet (viewMembers h1 aA cB1) "myID" = vB := by
    rw [viewMembers_eq, objGet_objSet_self, hidB]
  refine ⟨rfl, rfl, rfl, hvA, hvB, ?_, ?_⟩
  · rw [hvA, hvB]
    exact hne
  · intro k hk
    rw [viewMembers_eq, viewMembers_eq, objGet_objSet_ne _ _ _ _ hk,
      objGet_objSet_ne _ _ _ _ hk]

/-- Witness for C2: the spec's end-to-end scenario, "alice" and "bob" both
subscribing to "room-1" from a fresh state. -/
theorem identity_isolation_witness :
    objGet (viewMembers ⟨[[], [("name", JSVal.str "room-1"), ("members", JSVal.ref 0)]]⟩
        1 { id := JSVal.str "alice", idLog := [JSVal.str "alice"] }) "myID" =
      JSVal.str "alice" ∧
    objGet (viewMembers ⟨[[], [("name", JSVal.str "room-1"), ("members", JSVal.ref 0)]]⟩
        1 { id := JSVal.str "bob", idLog := [JSVal.str "bob"] }) "myID" =
      JSVal.str "bob" := by
  have t := identity_isolation ⟨[]⟩ ⟨[]⟩ "room-1" {} {}
    (JSVal.str "alice") (JSVal.str "bob") (by decide)
    { id := JSVal.str "alice", idLog := [JSVal.str "alice"] }
    ⟨[("room-1", 1)]⟩ ⟨[[], [("name", JSVal.str "room-1"), ("members", JSVal.ref 0)]]⟩ 1
    (by decide)
    { id := JSVal.str "bob", idLog := [JSVal.str "bob"] }
    ⟨[("room-1", 1)]⟩ ⟨[[], [("name", JSVal.str "room-1"), ("members", JSVal.ref 0)]]⟩ 1
    (by decide)
  exact ⟨t.2.2.2.1, t.2.2.2.2.1⟩

/-- C4. Live read, no memoization: for a client whose identity is still
absent when `subscribe` returns (the authorization deferred), reading the
self-identity slot of the returned view yields `undefined` (the absent
marker, not a failure), and after the deferred `setID` runs, reading the same
view again yields the resolved value — the merge is recomputed from the
client's `id` at every access, never cached at view-creation time. -/
theorem live_read_no_memoization (st : MockInstance) (h0 : Heap) (name : String)
    (c : MockClient) (hc : c.id = .undef) (v : JSVal)
    (c1 : MockClient) (st1 : MockInstance) (h1 : Heap) (a : Nat)
    (hsub : MockClient.subscribe c st h0 none name = (c1, st1, h1, a)) :
    objGet (viewMembers h1 a c1) "myID" = .undef ∧
    objGet (viewMembers h1 a (c1.setID v)) "myID" = v := by
  rw [subscribe_eq] at hsub
  injection hsub with e1 e2
  constructor
  · rw [viewMembers_eq, objGet_objSet_self, ← e1, hc]
  · rw [viewMembers_eq, objGet_objSet_self]
    rfl

/-- Witness for C4: a fresh client subscribes with authorization still
pending, reads `undefined`, then reads "late-id" once `setID` has run. -/
theorem live_read_no_memoization_witness :
    objGet (viewMembers ⟨[[], [("name", JSVal.str "room-1"), ("members", JSVal.ref 0)]]⟩
        1 {}) "myID" = JSVal.undef ∧
    objGet (viewMembers ⟨[[], [("name", JSVal.str "room-1"), ("members", JSVal.ref 0)]]⟩
        1 (MockClient.setID {} (JSVal.str "late-id"))) "myID" = JSVal.str "late-id" :=
  live_read_no_memoization ⟨[]⟩ ⟨[]⟩ "room-1" {} (by decide) (JSVal.str "late-id")
    {} ⟨[("room-1", 1)]⟩ ⟨[[], [("name", JSVal.str "room-1"), ("members", JSVal.ref 0)]]⟩ 1
    (by decide)

/-- C7. No mutation leakage: after a `members` read through the v2 overlay,
mutating the returned mapping (writing any key into the object the returned
reference points to) leaves the underlying channel's `members` object and the
channel itself untouched, and a later `members` read through any client's
overlay over the same channel still merges the original base membership with
that client's own identity. -/
theorem no_mutation_leakage (h : Heap) (a m : Nat) (c c' : MockClient)
    (hav : a < h.objs.length) (hmv : m < h.objs.length)
    (hm : objGet (h.get a) "members" = .ref m) (k : String) (v : JSVal)
    (h1 : Heap) (r : Nat)
    (hread : proxyGetV2 h a c "members" = (h1, .ref r))
    (h2 : Heap) (hmut : h1.set r (objSet (h1.get r) k v) = h2) :
    h2.get m = h.get m ∧
    h2.get a = h.get a ∧
    objGet (h2.get a) "members" = .ref m ∧
    viewMembers h2 a c' = objSet (h.get m) "myID" c'.id := by
  have hv2 := proxyGetV2_members h a c
  rw [hm, show spreadProps h (JSVal.ref m) = h.get m from rfl] at hv2
  rw [hread] at hv2
  injection hv2 with eh er
  injection er with er
  have hgm : h2.get m = h.get m := by
    rw [← hmut, eh, er]
    exact (listGetD_set_ne _ _ _ _ (Nat.ne_of_lt hmv)).trans
      (listGetD_append_lt h.objs _ m hmv)
  have hga : h2.get a = h.get a := by
    rw [← hmut, eh, er]
    exact (listGetD_set_ne _ _ _ _ (Nat.ne_of_lt hav)).trans
      (listGetD_append_lt h.objs _ a hav)
  have hmm : objGet (h2.get a) "members" = .ref m := by
    rw [hga]
    exact hm
  refine ⟨hgm, hga, hmm, ?_⟩
  rw [viewMembers_eq, hmm]
  show objSet (h2.get m) "myID" c'.id = _
  rw [hgm]

/-- Witness for C7 at a concrete input: "bob" reads the merged members of
"room-1", overwrites `myID` in the returned mapping, and "carol"'s view is
unaffected. -/
theorem no_mutation_leakage_witness :
    viewMembers
        ⟨[[("alice", JSVal.str "here")],
          [("name", JSVal.str "room-1"), ("members", JSVal.ref 0)],
          [("alice", JSVal.str "here"), ("myID", JSVal.str "hax")]]⟩ 1
        { id := JSVal.str "carol" } =
      [("alice", JSVal.str "here"), ("myID", JSVal.str "carol")] :=
  (no_mutation_leakage
    ⟨[[("alice", JSVal.str "here")],
      [("name", JSVal.str "room-1"), ("members", JSVal.ref 0)]]⟩ 1 0
    { id := JSVal.str "bob" } { id := JSVal.str "carol" }
    (by decide) (by decide) (by decide) "myID" (JSVal.str "hax")
    ⟨[[("alice", JSVal.str "here")],
      [("name", JSVal.str "room-1"), ("members", JSVal.ref 0)],
      [("alice", JSVal.str "here"), ("myID", JSVal.str "bob")]]⟩ 2
    (by decide)
    ⟨[[("alice", JSVal.str "here")],
      [("name", JSVal.str "room-1"), ("members", JSVal.ref 0)],
      [("alice", JSVal.str "here"), ("myID", JSVal.str "hax")]]⟩
    (by decide)).2.2.2

/-- C10 counterexample: two ways the original claim fails. Writing `myID`
through "alice"'s overlay does pierce to the shared channel, but "bob"'s v1
view still reads "bob" — its `get` trap masks the channel's own `myID`
property with the viewer's own identity, so the written value never becomes
visible there. And assigning `__proto__` on a view invokes the inherited
accessor of the target channel: with a string value no own property is
created and the channel is unchanged, so that write is not visible
anywhere. -/
theorem writes_pierce_overlay_counterexample :
    proxySet ⟨[[("alice", JSVal.str "here")],
        [("name", JSVal.str "room-1"), ("members", JSVal.ref 0)]]⟩ 1
        "myID" (JSVal.str "hax") =
      some ⟨[[("alice", JSVal.str "here")],
        [("name", JSVal.str "room-1"), ("members", JSVal.ref 0),
          ("myID", JSVal.str "hax")]]⟩ ∧
    objGet ((⟨[[("alice", JSVal.str "here")],
        [("name", JSVal.str "room-1"), ("members", JSVal.ref 0),
          ("myID", JSVal.str "hax")]]⟩ : Heap).get 1) "myID" = JSVal.str "hax" ∧
    proxyGetV1 ⟨[[("alice", JSVal.str "here")],
        [("name", JSVal.str "room-1"), ("members", JSVal.ref 0),
          ("myID", JSVal.str "hax")]]⟩ 1
        { id := JSVal.str "bob" } "myID" = JSVal.str "bob" ∧
    proxyGetV1 ⟨[[("alice", JSVal.str "here")],
        [("name", JSVal.str "room-1"), ("members", JSVal.ref 0),
          ("myID", JSVal.str "hax")]]⟩ 1
        { id := JSVal.str "bob" } "myID" ≠ JSVal.str "hax" ∧
    proxySet ⟨[[("alice", JSVal.str "here")],
        [("name", JSVal.str "room-1"), ("members", JSVal.ref 0)]]⟩ 1
        "__proto__" (JSVal.str "x") =
      some ⟨[[("alice", JSVal.str "here")],
        [("name", JSVal.str "room-1"), ("members", JSVal.ref 0)]]⟩ ∧
    objGet ((⟨[[("alice", JSVal.str "here")],
        [("name", JSVal.str "room-1"), ("members", JSVal.ref 0)]]⟩ : Heap).get 1)
        "__proto__" = JSVal.undef := by
  refine ⟨rfl, rfl, rfl, ?_, rfl, rfl⟩
  decide

/-- C10 amended. Writes pierce the overlay: both proxy handlers define only
a `get` trap, so assigning a property on a view forwards the write to the
underlying shared channel's `[[Set]]`. For every key other than `__proto__`
this writes the channel's own property, and the new value is then what a
direct channel read returns and what any other subscriber's view reads for
every key that subscriber's own trap does not intercept; an overlay-write of
`members` itself becomes the base of every other subscriber's merged
membership view. At an intercepted slot the other subscriber's trap wins: a
v1 view always reads its own client's identity at `myID`, whatever was
written. Assigning `__proto__` invokes the channel's inherited accessor and
creates no own property (a primitive value changes nothing). -/
theorem writes_pierce_overlay_amended (h : Heap) (a : Nat) (ha : a < h.objs.length)
    (cB : MockClient) (k : String) (v : JSVal)
    (h2 : Heap) (hset : proxySet h a k v = some h2) :
    (k ≠ "__proto__" → objGet (h2.get a) k = v) ∧
    (k ≠ "__proto__" → k ≠ "myID" → proxyGetV1 h2 a cB k = v) ∧
    (k ≠ "__proto__" → k ≠ "members" → proxyGetV2 h2 a cB k = (h2, v)) ∧
    (∀ mv, k = "members" → v = .ref mv →
      viewMembers h2 a cB = objSet (h2.get mv) "myID" cB.id) ∧
    proxyGetV1 h2 a cB "myID" = cB.id ∧
    (k = "__proto__" → h2 = h ∧ h2.get a = h.get a) := by
  by_cases hp : k = "__proto__"
  · subst hp
    unfold proxySet at hset
    rw [if_pos rfl] at hset
    have hh : h2 = h := by
      cases v with
      | undef => injection hset with e; exact e.symm
      | str s => injection hset with e; exact e.symm
      | ref a1 => exact Option.noConfusion hset
    subst hh
    refine ⟨fun hne => absurd rfl hne, fun hne => absurd rfl hne,
      fun hne => absurd rfl hne, ?_, ?_, fun _ => ⟨rfl, rfl⟩⟩
    · intro mv hkm
      exact absurd hkm (by decide)
    · simp [proxyGetV1]
  · unfold proxySet at hset
    rw [if_neg hp] at hset
    injection hset with e
    have hget : h2.get a = objSet (h.get a) k v := by
      rw [← e]
      exact listGetD_set_self h.objs _ a ha
    have hk : objGet (h2.get a) k = v := by
      rw [hget]
      exact objGet_objSet_self _ _ _
    refine ⟨fun _ => hk, fun _ hne => ?_, fun _ hne => ?_, ?_, ?_,
      fun hpk => absurd hpk hp⟩
    · rw [proxyGetV1, if_neg hne]
      exact hk
    · rw [proxyGetV2, if_neg hne]
      rw [hk]
    · intro mv hkm hv
      subst hkm
      subst hv
      rw [viewMembers_eq, hk]
      rfl
    · simp [proxyGetV1]

/-- Witness for the amended C10 at a concrete input: writing `topic` through
the overlay is read back through another subscriber's v1 overlay. -/
theorem writes_pierce_overlay_amended_witness :
    proxyGetV1
        ⟨[[("alice", JSVal.str "here")],
          [("name", JSVal.str "room-1"), ("members", JSVal.ref 0),
            ("topic", JSVal.str "lean")]]⟩ 1 {} "topic" =
      JSVal.str "lean" :=
  ((writes_pierce_overlay_amended
    ⟨[[("alice", JSVal.str "here")],
      [("name", JSVal.str "room-1"), ("members", JSVal.ref 0)]]⟩ 1
    (by decide) {} "topic" (JSVal.str "lean")
    ⟨[[("alice", JSVal.str "here")],
      [("name", JSVal.str "room-1"), ("members", JSVal.ref 0),
        ("topic", JSVal.str "lean")]]⟩
    (by decide)).2.1 (by decide)) (by decide)

/-- C8. Evaluation of the `src/mock-client.js` draft of `subscribe` at the
input of `src/create-client.test.js` (a client built by `createClient`
with id "my-id" subscribing to "my-channel"): the authorization callback
assigns "my-id" to `this.id`, and then `this.id =
this.config.authorizer(callback)` assigns a second time — the authorizer's
return value, `undefined` — so the identity is assigned twice in the one
completing subscribe call and ends absent, and reading `myID` on the
returned view yields `undefined` where the test expects "my-id". -/
theorem mockClientJs_id_assigned_twice :
    (subscribeViaCreateClient ⟨[]⟩ ⟨[]⟩ {} (.str "my-id") "my-channel").2.2.1.idLog =
      [.str "my-id", .undef] ∧
    (subscribeViaCreateClient ⟨[]⟩ ⟨[]⟩ {} (.str "my-id") "my-channel").2.2.1.id =
      .undef ∧
    proxyGetV1 (subscribeViaCreateClient ⟨[]⟩ ⟨[]⟩ {} (.str "my-id") "my-channel").2.1
        (subscribeViaCreateClient ⟨[]⟩ ⟨[]⟩ {} (.str "my-id") "my-channel").2.2.2
        (subscribeViaCreateClient ⟨[]⟩ ⟨[]⟩ {} (.str "my-id") "my-channel").2.2.1
        "myID" = .undef ∧
    proxyGetV1 (subscribeViaCreateClient ⟨[]⟩ ⟨[]⟩ {} (.str "my-id") "my-channel").2.1
        (subscribeViaCreateClient ⟨[]⟩ ⟨[]⟩ {} (.str "my-id") "my-channel").2.2.2
        (subscribeViaCreateClient ⟨[]⟩ ⟨[]⟩ {} (.str "my-id") "my-channel").2.2.1
        "myID" ≠ .str "my-id" := by
  refine ⟨rfl, rfl, rfl, ?_⟩
  decide

end JestMock
